import Mathlib

/-!
A verification development for the service-catalog admission gate,
lifecycle strategy and validation code.

The Go sources are embedded shallowly:

* `Admit` embeds `blockConcurrentUpdates.Admit` (plugin
  `blockconcurrentupdates`); the informer-cache readiness check
  `cu.WaitForReady()` is modelled by an explicit `synced : Bool` argument,
  since readiness is the only fact `Admit` reads from the cache.
* `PrepareForCreate`, `PrepareForUpdate`, `setServiceInstanceUserInfo` and
  `setServiceInstanceReadyFalseCondition` embed
  `pkg/registry/servicecatalog/instance/strategy.go`; the feature gate
  `OriginatingIdentity` and the request context are explicit arguments, and
  `metav1.Now()` is an explicit `now : Nat` argument.
* The validation functions embed
  `pkg/apis/servicecatalog/validation` (instance and binding files).
  Functions from outside the repository (k8s.io apimachinery's
  `ValidateObjectMeta` and `NameIsDNSSubdomain`, the class/plan name
  validators, `controller.UnmarshalRawParameters`, and the yaml
  unmarshaller) are abstract parameters collected in `Ext`; theorems
  quantify over them.

Go machine integers (`int64` generations) are modelled as `Int`; byte
slices as `List Nat`; `nil` pointers as `Option`; Go maps and slices both
as `List` (so the nil/empty distinction, which none of the embedded code
observes, is dropped).
-/

namespace SvcCat

/-- k8s `runtime.RawExtension`: the raw bytes of an embedded document. -/
structure RawExtension where
  raw : List Nat
  deriving DecidableEq

/-- Embeds `servicecatalog.UserInfo` (username/UID/groups/extra of the initiating
user); the `Extra` map is modelled as an association list. -/
structure UserInfo where
  username : String
  uid : String
  groups : List String
  extra : List (String × List String)
  deriving DecidableEq

/-- The fields of `metav1.ObjectMeta` that the embedded code reads or
writes. `namespace` is a Lean keyword, hence `namespc`. -/
structure ObjectMeta where
  name : String
  namespc : String
  generation : Int
  deletionTimestamp : Option Nat
  finalizers : List String
  deriving DecidableEq

/-- Embeds `servicecatalog.ServiceInstanceCondition`. `Type` is a Lean keyword,
hence `condType`; `ConditionStatus` is a string type in Go. -/
structure ServiceInstanceCondition where
  condType : String
  status : String
  reason : String
  message : String
  lastTransitionTime : Nat
  deriving DecidableEq

/-- Embeds `servicecatalog.ServiceInstanceCredentialCondition`. -/
structure ServiceInstanceCredentialCondition where
  condType : String
  status : String
  reason : String
  message : String
  lastTransitionTime : Nat
  deriving DecidableEq

def ConditionTrue : String := "True"

def ConditionFalse : String := "False"

def ServiceInstanceConditionReady : String := "Ready"

def ServiceInstanceCredentialConditionReady : String := "Ready"

def ServiceInstanceOperationProvision : String := "Provision"

def ServiceInstanceOperationUpdate : String := "Update"

def ServiceInstanceOperationDeprovision : String := "Deprovision"

def ServiceInstanceCredentialOperationBind : String := "Bind"

def ServiceInstanceCredentialOperationUnbind : String := "Unbind"

def GroupName : String := "servicecatalog.k8s.io"

def FinalizerServiceCatalog : String := "kubernetes-incubator/service-catalog"

/-- A properties snapshot: models both
`servicecatalog.ServiceInstancePropertiesState` and
`servicecatalog.ServiceInstanceCredentialPropertiesState`, whose fields
read by the embedded validators coincide. -/
structure PropertiesState where
  parameters : Option RawExtension
  parametersChecksum : String
  deriving DecidableEq

/-- Embeds `servicecatalog.ServiceInstanceStatus` (the fields the embedded code
reads or writes). -/
structure ServiceInstanceStatus where
  conditions : List ServiceInstanceCondition
  asyncOpInProgress : Bool
  reconciledGeneration : Int
  currentOperation : String
  operationStartTime : Option Nat
  inProgressProperties : Option PropertiesState
  externalProperties : Option PropertiesState
  lastOperation : Option String
  deriving DecidableEq

/-- Embeds `servicecatalog.ServiceInstanceCredentialStatus`. -/
structure ServiceInstanceCredentialStatus where
  conditions : List ServiceInstanceCredentialCondition
  currentOperation : String
  reconciledGeneration : Int
  operationStartTime : Option Nat
  inProgressProperties : Option PropertiesState
  externalProperties : Option PropertiesState
  deriving DecidableEq

/-- Embeds `v1.SecretKeyReference`. -/
structure SecretKeyReference where
  name : String
  key : String
  deriving DecidableEq

/-- Embeds `servicecatalog.ParametersFromSource`. -/
structure ParametersFromSource where
  secretKeyRef : Option SecretKeyReference
  deriving DecidableEq

/-- Embeds `servicecatalog.ServiceInstanceSpec` (fields the embedded code reads;
spec equality in `PrepareForUpdate` is structural equality here). -/
structure ServiceInstanceSpec where
  serviceClassName : String
  planName : String
  parameters : Option RawExtension
  parametersFrom : List ParametersFromSource
  externalID : String
  userInfo : Option UserInfo
  deriving DecidableEq

/-- Embeds `servicecatalog.ServiceInstance` (ObjectMeta is embedded in Go; here it
is the field `meta`). -/
structure ServiceInstance where
  meta : ObjectMeta
  spec : ServiceInstanceSpec
  status : ServiceInstanceStatus
  deriving DecidableEq

/-- Embeds `servicecatalog.ServiceInstanceCredentialSpec` (fields the embedded
validators read: `ServiceInstanceRef.Name` and `SecretName`). -/
structure ServiceInstanceCredentialSpec where
  serviceInstanceRefName : String
  secretName : String
  userInfo : Option UserInfo
  deriving DecidableEq

/-- Embeds `servicecatalog.ServiceInstanceCredential`. -/
structure ServiceInstanceCredential where
  meta : ObjectMeta
  spec : ServiceInstanceCredentialSpec
  status : ServiceInstanceCredentialStatus
  deriving DecidableEq

/-! ## The admission gate (`plugin/pkg/admission/.../admission.go`) -/

/-- Embeds `schema.GroupResource`. -/
structure GroupResource where
  group : String
  resource : String
  deriving DecidableEq

/-- Embeds `servicecatalog.Resource(resource)`: the group resource qualified with
the service-catalog group. -/
def Resource (resource : String) : GroupResource :=
  { group := GroupName, resource := resource }

/-- The object carried by an admission request, as a closed sum: the two
kind-specific type assertions in `Admit` succeed exactly on the matching
variants. -/
inductive AdmissionObject where
  | inst (i : ServiceInstance)
  | cred (c : ServiceInstanceCredential)
  | other
  deriving DecidableEq

/-- Embeds `admission.Operation`. -/
inductive Operation where
  | create
  | update
  | delete
  | connect
  deriving DecidableEq

/-- The fields of `admission.Attributes` that `Admit` reads (`GetObject`,
`GetResource`, `GetSubresource`); `operation` is carried for the record
(the handler is registered for `admission.Update` only). -/
structure Attributes where
  obj : AdmissionObject
  resource : GroupResource
  subresource : String
  operation : Operation
  deriving DecidableEq

/-- The outcome of `Admit`: `nil`, `admission.NewForbidden`,
`apierrors.NewBadRequest` or `apierrors.NewConflict` (which carries the
group resource, the `namespace/name` string, and the wrapped error
message). -/
inductive AdmitResult where
  | allowed
  | forbidden (msg : String)
  | badRequest (msg : String)
  | conflict (gr : GroupResource) (name : String) (msg : String)
  deriving DecidableEq

def notYetReadyMsg : String := "not yet ready to handle request"

/-- Embeds `blockConcurrentUpdates.Admit`. `synced` models `cu.WaitForReady()`:
the informers' `HasSynced`, the only cache state the function reads. -/
def Admit (synced : Bool) (a : Attributes) : AdmitResult :=
  if !synced then
    .forbidden notYetReadyMsg
  else if a.resource.group ≠ GroupName then
    .allowed
  else if a.subresource = "status" then
    .allowed
  else if a.resource = Resource "serviceinstances" then
    match a.obj with
    | .inst i =>
      if i.meta.deletionTimestamp.isSome ∨ i.status.reconciledGeneration ≠ i.meta.generation then
        .conflict (Resource "serviceinstances") (i.meta.namespc ++ "/" ++ i.meta.name)
          "pending change"
      else
        .allowed
    | _ => .badRequest "Resource was marked with kind ServiceInstance but was unable to be converted"
  else if a.resource = Resource "serviceinstancecredentials" then
    match a.obj with
    | .cred c =>
      if c.status.reconciledGeneration ≠ c.meta.generation then
        .conflict (Resource "serviceinstancecredentials") (c.meta.namespc ++ "/" ++ c.meta.name)
          "pending change"
      else
        .allowed
    | _ => .badRequest "Resource was marked with kind ServiceInstanceCredential but was unable to be converted"
  else
    .allowed

/-! ## The lifecycle strategy (`pkg/registry/servicecatalog/instance/strategy.go`) -/

/-- What `genericapirequest.UserFrom` yields: the `user.Info` of the
request. -/
structure RequestUser where
  name : String
  uid : String
  groups : List String
  extra : List (String × List String)
  deriving DecidableEq

/-- Embeds `genericapirequest.Context`, reduced to what the strategy reads from
it: the optional request user. -/
structure Context where
  user : Option RequestUser
  deriving DecidableEq

/-- Embeds `setServiceInstanceUserInfo`: resets `Spec.UserInfo`, then stamps it
from the request context when a user is present. (Go copies `Extra` only
when non-empty, leaving a nil map otherwise; with maps as lists the two
cases coincide.) -/
def setServiceInstanceUserInfo (ctx : Context) (i : ServiceInstance) : ServiceInstance :=
  match ctx.user with
  | none => { i with spec := { i.spec with userInfo := none } }
  | some u =>
    let ui : UserInfo :=
      { username := u.name, uid := u.uid, groups := u.groups, extra := u.extra }
    { i with spec := { i.spec with userInfo := some ui } }

/-- The zero value of `sc.ServiceInstanceStatus`. -/
def zeroServiceInstanceStatus : ServiceInstanceStatus :=
  { conditions := []
    asyncOpInProgress := false
    reconciledGeneration := 0
    currentOperation := ""
    operationStartTime := none
    inProgressProperties := none
    externalProperties := none
    lastOperation := none }

/-- Embeds `instanceRESTStrategy.PrepareForCreate`. -/
def PrepareForCreate (originatingIdentityEnabled : Bool) (ctx : Context)
    (obj : ServiceInstance) : ServiceInstance :=
  let obj := if originatingIdentityEnabled then setServiceInstanceUserInfo ctx obj else obj
  let obj := { obj with status := zeroServiceInstanceStatus }
  let obj := { obj with status := { obj.status with conditions := [] } }
  { obj with meta := { obj.meta with finalizers := [FinalizerServiceCatalog], generation := 1 } }

/-- The condition `setServiceInstanceReadyFalseCondition` builds, before
its `LastTransitionTime` is decided. -/
def newReadyFalseCondition (t : Nat) : ServiceInstanceCondition :=
  { condType := ServiceInstanceConditionReady
    status := ConditionFalse
    reason := "UpdateInitiated"
    message := "Update initiated on ServiceInstance"
    lastTransitionTime := t }

/-- The loop body of `setServiceInstanceReadyFalseCondition`: replace the
first `Ready` condition (keeping its transition time when its status was
already `False`), or append when none exists. The empty-list case covers
both the early `len == 0` return and the fall-through append. -/
def upsertReadyFalse (now : Nat) : List ServiceInstanceCondition → List ServiceInstanceCondition
  | [] => [newReadyFalseCondition now]
  | c :: rest =>
    if c.condType = ServiceInstanceConditionReady then
      (if c.status ≠ ConditionFalse then newReadyFalseCondition now
       else newReadyFalseCondition c.lastTransitionTime) :: rest
    else
      c :: upsertReadyFalse now rest

/-- Embeds `setServiceInstanceReadyFalseCondition`. -/
def setServiceInstanceReadyFalseCondition (now : Nat) (i : ServiceInstance) : ServiceInstance :=
  { i with status := { i.status with conditions := upsertReadyFalse now i.status.conditions } }

/-- Embeds `instanceRESTStrategy.PrepareForUpdate`. -/
def PrepareForUpdate (originatingIdentityEnabled : Bool) (ctx : Context) (now : Nat)
    (newObj oldObj : ServiceInstance) : ServiceInstance :=
  let newObj := { newObj with status := oldObj.status }
  if ¬(oldObj.spec = newObj.spec) then
    let newObj := if originatingIdentityEnabled then setServiceInstanceUserInfo ctx newObj else newObj
    let newObj := { newObj with meta := { newObj.meta with generation := oldObj.meta.generation + 1 } }
    setServiceInstanceReadyFalseCondition now newObj
  else
    newObj

/-! ## The validators (`pkg/apis/servicecatalog/validation`) -/

/-- Embeds `field.ErrorType` (k8s.io apimachinery). -/
inductive ErrorType where
  | notFound
  | required
  | duplicate
  | invalid
  | notSupported
  | forbidden
  | tooLong
  | internal
  deriving DecidableEq

/-- Embeds `field.Error`. The field path is flattened to a string; for
`field.NotSupported` the legal values, which Go folds into the detail
string in an unspecified (map-iteration) order, are kept as a list in
`supportedValues` (empty for every other error kind). -/
structure FieldError where
  errType : ErrorType
  fieldPath : String
  badValue : String
  detail : String
  supportedValues : List String := []
  deriving DecidableEq

/-- Embeds `field.Required(path, detail)`. -/
def requiredErr (path detail : String) : FieldError :=
  { errType := .required, fieldPath := path, badValue := "", detail := detail }

/-- Embeds `field.Invalid(path, badValue, detail)`. -/
def invalidErr (path badValue detail : String) : FieldError :=
  { errType := .invalid, fieldPath := path, badValue := badValue, detail := detail }

/-- Embeds `field.Forbidden(path, detail)`. -/
def forbiddenErr (path detail : String) : FieldError :=
  { errType := .forbidden, fieldPath := path, badValue := "", detail := detail }

/-- Embeds `field.NotSupported(path, badValue, validValues)`. -/
def notSupportedErr (path badValue : String) (valid : List String) : FieldError :=
  { errType := .notSupported, fieldPath := path, badValue := badValue,
    detail := "supported values", supportedValues := valid }

/-- Embeds `fldPath.Child(c)`. -/
def childPath (p c : String) : String := p ++ "." ++ c

/-- Embeds `fldPath.Index(i)`. -/
def indexPath (p : String) (i : Nat) : String := p ++ "[" ++ toString i ++ "]"

/-- The functions the validators call that live outside this repository
(k8s.io apimachinery and sigs yaml) or outside the provided sources (the
class/plan name validators, `controller.UnmarshalRawParameters`). The
boolean fields model success of the corresponding fallible call. Theorems
quantify over an arbitrary `Ext`. -/
structure Ext where
  validateObjectMeta : ObjectMeta → List FieldError
  nameIsDNSSubdomain : String → Bool → List String
  validateServiceClassName : String → Bool → List String
  validateServicePlanName : String → Bool → List String
  unmarshalRawParametersOk : List Nat → Bool
  yamlIsStructured : List Nat → Bool

/-- The domain of the Go map `validServiceInstanceOperations` (every key
maps to `true`; lookup of a missing key yields `false`). -/
def validServiceInstanceOperations : List String :=
  ["", ServiceInstanceOperationProvision, ServiceInstanceOperationUpdate,
   ServiceInstanceOperationDeprovision]

/-- The domain of the Go map `validServiceInstanceCredentialOperations`. -/
def validServiceInstanceCredentialOperations : List String :=
  ["", ServiceInstanceCredentialOperationBind, ServiceInstanceCredentialOperationUnbind]

/-- Modelled from the spec: the helper `stringIsHexadecimal` of the
validation package is not among the provided sources. The spec requires a
checksum to be "64 hexadecimal characters" and calls out "containing a
non-hex character" as the failure, so the model accepts exactly the
strings all of whose characters are hexadecimal digits. -/
def stringIsHexadecimal (s : String) : Bool :=
  s.data.all fun c => c.isDigit || ('a' ≤ c && c ≤ 'f') || ('A' ≤ c && c ≤ 'F')

/-- Embeds `validateServiceInstancePropertiesState`. -/
def validateServiceInstancePropertiesState (ext : Ext) (ps : PropertiesState)
    (fldPath : String) (create : Bool) : List FieldError :=
  (match ps.parameters with
   | none =>
     if ps.parametersChecksum ≠ "" then
       [forbiddenErr (childPath fldPath "parametersChecksum")
         "parametersChecksum must be empty when there are no parameters"]
     else []
   | some p =>
     (if p.raw.length = 0 then
        [requiredErr (childPath (childPath fldPath "parameters") "raw") "raw must not be empty"]
      else if ext.yamlIsStructured p.raw then []
      else
        [invalidErr (childPath (childPath fldPath "parameters") "raw") (toString p.raw)
          "raw must be valid yaml"]) ++
     (if ps.parametersChecksum = "" then
        [forbiddenErr (childPath fldPath "parametersChecksum")
          "parametersChecksum must not be empty when there are parameters"]
      else [])) ++
  (if ps.parametersChecksum ≠ "" then
     (if ps.parametersChecksum.length ≠ 64 then
        [invalidErr (childPath fldPath "parametersChecksum") ps.parametersChecksum
          "parametersChecksum must be exactly 64 digits"]
      else []) ++
     (if stringIsHexadecimal ps.parametersChecksum then []
      else
        [invalidErr (childPath fldPath "parametersChecksum") ps.parametersChecksum
          "parametersChecksum must be a hexadecimal number"])
   else [])

/-- Embeds `validateServiceInstanceCredentialPropertiesState`: textually the same
checks as the instance version, over the credential snapshot type (here
the shared `PropertiesState`). -/
def validateServiceInstanceCredentialPropertiesState (ext : Ext) (ps : PropertiesState)
    (fldPath : String) (create : Bool) : List FieldError :=
  (match ps.parameters with
   | none =>
     if ps.parametersChecksum ≠ "" then
       [forbiddenErr (childPath fldPath "parametersChecksum")
         "parametersChecksum must be empty when there are no parameters"]
     else []
   | some p =>
     (if p.raw.length = 0 then
        [requiredErr (childPath (childPath fldPath "parameters") "raw") "raw must not be empty"]
      else if ext.yamlIsStructured p.raw then []
      else
        [invalidErr (childPath (childPath fldPath "parameters") "raw") (toString p.raw)
          "raw must be valid yaml"]) ++
     (if ps.parametersChecksum = "" then
        [forbiddenErr (childPath fldPath "parametersChecksum")
          "parametersChecksum must not be empty when there are parameters"]
      else [])) ++
  (if ps.parametersChecksum ≠ "" then
     (if ps.parametersChecksum.length ≠ 64 then
        [invalidErr (childPath fldPath "parametersChecksum") ps.parametersChecksum
          "parametersChecksum must be exactly 64 digits"]
      else []) ++
     (if stringIsHexadecimal ps.parametersChecksum then []
      else
        [invalidErr (childPath fldPath "parametersChecksum") ps.parametersChecksum
          "parametersChecksum must be a hexadecimal number"])
   else [])

/-- The `Ready=True` forbidden errors of `validateServiceInstanceStatus`
(the loop over `status.Conditions` under a non-empty operation). -/
def readyTrueConditionErrors (conds : List ServiceInstanceCondition)
    (fldPath : String) : List FieldError :=
  conds.enum.filterMap fun ic =>
    if ic.2.condType = ServiceInstanceConditionReady ∧ ic.2.status = ConditionTrue then
      some (forbiddenErr (indexPath (childPath fldPath "Conditions") ic.1)
        "Can not set ServiceInstanceConditionReady to true when there is an operation in progress")
    else none

/-- Embeds `validateServiceInstanceStatus`. -/
def validateServiceInstanceStatus (ext : Ext) (status : ServiceInstanceStatus)
    (fldPath : String) (create : Bool) : List FieldError :=
  (if status.currentOperation ∈ validServiceInstanceOperations then []
   else
     [notSupportedErr (childPath fldPath "currentOperation") status.currentOperation
       validServiceInstanceOperations]) ++
  (if status.currentOperation = "" then
     (if status.operationStartTime.isSome then
        [forbiddenErr (childPath fldPath "operationStartTime")
          "operationStartTime must not be present when currentOperation is not present"]
      else []) ++
     (if status.asyncOpInProgress then
        [forbiddenErr (childPath fldPath "asyncOpInProgress")
          "asyncOpInProgress cannot be true when there is no currentOperation"]
      else []) ++
     (if status.lastOperation.isSome then
        [forbiddenErr (childPath fldPath "lastOperation")
          "lastOperation cannot be true when currentOperation is not present"]
      else [])
   else
     (if status.operationStartTime = none then
        [requiredErr (childPath fldPath "operationStartTime")
          "operationStartTime is required when currentOperation is present"]
      else []) ++
     readyTrueConditionErrors status.conditions fldPath) ++
  (if status.currentOperation = ServiceInstanceOperationProvision ∨
      status.currentOperation = ServiceInstanceOperationUpdate then
     (if status.inProgressProperties = none then
        [requiredErr (childPath fldPath "inProgressProperties")
          "inProgressProperties is required when currentOperation is \"Provision\" or \"Update\""]
      else [])
   else
     (if status.inProgressProperties ≠ none then
        [forbiddenErr (childPath fldPath "inProgressProperties")
          "inProgressProperties must not be present when currentOperation is neither \"Provision\" nor \"Update\""]
      else [])) ++
  (match status.inProgressProperties with
   | some ps =>
     validateServiceInstancePropertiesState ext ps (childPath fldPath "inProgressProperties") create
   | none => []) ++
  (match status.externalProperties with
   | some ps =>
     validateServiceInstancePropertiesState ext ps (childPath fldPath "externalProperties") create
   | none => [])

/-- The per-entry checks of the `spec.ParametersFrom` loop in
`validateServiceInstanceSpec`. -/
def validateParametersFromSource (fldPath : String) (pf : ParametersFromSource) : List FieldError :=
  match pf.secretKeyRef with
  | some ref =>
    (if ref.name = "" then
       [requiredErr (childPath fldPath "parametersFrom.secretKeyRef.name") "name is required"]
     else []) ++
    (if ref.key = "" then
       [requiredErr (childPath fldPath "parametersFrom.secretKeyRef.key") "key is required"]
     else [])
  | none =>
    [requiredErr (childPath fldPath "parametersFrom") "source must not be empty if present"]

/-- Embeds `validateServiceInstanceSpec`. -/
def validateServiceInstanceSpec (ext : Ext) (spec : ServiceInstanceSpec)
    (fldPath : String) (create : Bool) : List FieldError :=
  (if spec.serviceClassName = "" then
     [requiredErr (childPath fldPath "serviceClassName") "serviceClassName is required"]
   else []) ++
  ((ext.validateServiceClassName spec.serviceClassName false).map fun msg =>
    invalidErr (childPath fldPath "serviceClassName") spec.serviceClassName msg) ++
  (if spec.planName = "" then
     [requiredErr (childPath fldPath "planName") "planName is required"]
   else []) ++
  ((ext.validateServicePlanName spec.planName false).map fun msg =>
    invalidErr (childPath fldPath "planName") spec.planName msg) ++
  (spec.parametersFrom.map (validateParametersFromSource fldPath)).flatten ++
  (match spec.parameters with
   | some p =>
     (if p.raw.length = 0 then
        [requiredErr (childPath fldPath "parameters")
          "inline parameters must not be empty if present"]
      else []) ++
     (if ext.unmarshalRawParametersOk p.raw then []
      else [requiredErr (childPath fldPath "parameters") "invalid inline parameters"])
   | none => [])

/-- Embeds `internalValidateServiceInstance`. `ext.validateObjectMeta` stands for
`apivalidation.ValidateObjectMeta(meta, true, validateServiceInstanceName,
NewPath("metadata"))`. -/
def internalValidateServiceInstance (ext : Ext) (inst : ServiceInstance)
    (create : Bool) : List FieldError :=
  ext.validateObjectMeta inst.meta ++
  validateServiceInstanceSpec ext inst.spec "Spec" create ++
  validateServiceInstanceStatus ext inst.status "Status" create ++
  (if inst.status.reconciledGeneration = inst.meta.generation then
     (if inst.status.currentOperation ≠ "" then
        [forbiddenErr (childPath "Status" "currentOperation")
          "currentOperation must not be present when reconciledGeneration and generation are the same"]
      else [])
   else [])

/-- Embeds `ValidateServiceInstance`. -/
def ValidateServiceInstance (ext : Ext) (inst : ServiceInstance) : List FieldError :=
  internalValidateServiceInstance ext inst true

def asyncOpMsg : String := "Another operation for this service instance is in progress"

/-- Embeds `internalValidateServiceInstanceUpdateAllowed`. -/
def internalValidateServiceInstanceUpdateAllowed (newI oldI : ServiceInstance) : List FieldError :=
  if oldI.status.asyncOpInProgress then [forbiddenErr "Spec" asyncOpMsg] else []

/-- Embeds `ValidateServiceInstanceUpdate`. -/
def ValidateServiceInstanceUpdate (ext : Ext) (newI oldI : ServiceInstance) : List FieldError :=
  internalValidateServiceInstanceUpdateAllowed newI oldI ++
  internalValidateServiceInstance ext newI false

/-- Embeds `internalValidateServiceInstanceStatusUpdateAllowed` (returns no
errors; the Go body is a TODO). -/
def internalValidateServiceInstanceStatusUpdateAllowed (newI oldI : ServiceInstance) :
    List FieldError :=
  []

/-- Embeds `ValidateServiceInstanceStatusUpdate`. -/
def ValidateServiceInstanceStatusUpdate (ext : Ext) (newI oldI : ServiceInstance) :
    List FieldError :=
  internalValidateServiceInstanceStatusUpdateAllowed newI oldI ++
  internalValidateServiceInstance ext newI false

/-- Embeds `validateServiceInstanceCredentialSpec`. Both name checks call DNS
subdomain validation (`validateServiceInstanceName` is an alias of
`apivalidation.NameIsDNSSubdomain`). -/
def validateServiceInstanceCredentialSpec (ext : Ext) (spec : ServiceInstanceCredentialSpec)
    (fldPath : String) (create : Bool) : List FieldError :=
  ((ext.nameIsDNSSubdomain spec.serviceInstanceRefName false).map fun msg =>
    invalidErr (childPath (childPath fldPath "instanceRef") "name") spec.serviceInstanceRefName msg) ++
  ((ext.nameIsDNSSubdomain spec.secretName false).map fun msg =>
    invalidErr (childPath fldPath "secretName") spec.secretName msg)

/-- The `Ready=True` forbidden errors of
`validateServiceInstanceCredentialStatus`. -/
def readyTrueCredentialConditionErrors (conds : List ServiceInstanceCredentialCondition)
    (fldPath : String) : List FieldError :=
  conds.enum.filterMap fun ic =>
    if ic.2.condType = ServiceInstanceCredentialConditionReady ∧ ic.2.status = ConditionTrue then
      some (forbiddenErr (indexPath (childPath fldPath "Conditions") ic.1)
        "Can not set ServiceInstanceCredentialConditionReady to true when there is an operation in progress")
    else none

/-- Embeds `validateServiceInstanceCredentialStatus`. (The Go source's `switch`
over the operation with a no-op `default` appends nothing and is dead
code; it contributes nothing here.) -/
def validateServiceInstanceCredentialStatus (ext : Ext)
    (status : ServiceInstanceCredentialStatus) (fldPath : String) (create : Bool) :
    List FieldError :=
  (if status.currentOperation ∈ validServiceInstanceCredentialOperations then []
   else
     [notSupportedErr (childPath fldPath "currentOperation") status.currentOperation
       validServiceInstanceCredentialOperations]) ++
  (if status.currentOperation = "" then
     (if status.operationStartTime.isSome then
        [forbiddenErr (childPath fldPath "operationStartTime")
          "operationStartTime must not be present when currentOperation is not present"]
      else [])
   else
     (if status.operationStartTime = none then
        [requiredErr (childPath fldPath "operationStartTime")
          "operationStartTime is required when currentOperation is present"]
      else []) ++
     readyTrueCredentialConditionErrors status.conditions fldPath) ++
  (if status.currentOperation = ServiceInstanceCredentialOperationBind then
     (if status.inProgressProperties = none then
        [requiredErr (childPath fldPath "inProgressProperties")
          "inProgressProperties is required when currentOperation is \"Bind\""]
      else [])
   else
     (if status.inProgressProperties ≠ none then
        [forbiddenErr (childPath fldPath "inProgressProperties")
          "inProgressProperties must not be present when currentOperation is not \"Bind\""]
      else [])) ++
  (match status.inProgressProperties with
   | some ps =>
     validateServiceInstanceCredentialPropertiesState ext ps
       (childPath fldPath "inProgressProperties") create
   | none => []) ++
  (match status.externalProperties with
   | some ps =>
     validateServiceInstanceCredentialPropertiesState ext ps
       (childPath fldPath "externalProperties") create
   | none => [])

/-- Embeds `internalValidateServiceInstanceCredential`. (The final forbidden
detail reproduces the Go source's "andgeneration" typo.) -/
def internalValidateServiceInstanceCredential (ext : Ext) (binding : ServiceInstanceCredential)
    (create : Bool) : List FieldError :=
  ext.validateObjectMeta binding.meta ++
  validateServiceInstanceCredentialSpec ext binding.spec "Spec" create ++
  validateServiceInstanceCredentialStatus ext binding.status "Status" create ++
  (if binding.status.reconciledGeneration = binding.meta.generation then
     (if binding.status.currentOperation ≠ "" then
        [forbiddenErr (childPath "Status" "currentOperation")
          "currentOperation must not be present when reconciledGeneration andgeneration are the same"]
      else [])
   else [])

/-- Embeds `ValidateServiceInstanceCredential`. -/
def ValidateServiceInstanceCredential (ext : Ext) (binding : ServiceInstanceCredential) :
    List FieldError :=
  internalValidateServiceInstanceCredential ext binding true

/-- Embeds `ValidateServiceInstanceCredentialUpdate` (ignores `old`). -/
def ValidateServiceInstanceCredentialUpdate (ext : Ext)
    (newB oldB : ServiceInstanceCredential) : List FieldError :=
  internalValidateServiceInstanceCredential ext newB false

/-- Embeds `ValidateServiceInstanceCredentialStatusUpdate` (appends the update
validator's errors to an empty list). -/
def ValidateServiceInstanceCredentialStatusUpdate (ext : Ext)
    (newB oldB : ServiceInstanceCredential) : List FieldError :=
  [] ++ ValidateServiceInstanceCredentialUpdate ext newB oldB

/-! ## Concrete inputs used by witnesses and counterexamples -/

/-- An `Ext` whose external validators accept everything: used to
instantiate universally quantified theorems at a concrete point. -/
def extTriv : Ext :=
  { validateObjectMeta := fun _ => []
    nameIsDNSSubdomain := fun _ _ => []
    validateServiceClassName := fun _ _ => []
    validateServicePlanName := fun _ _ => []
    unmarshalRawParametersOk := fun _ => true
    yamlIsStructured := fun _ => true }

/-- A small well-formed spec. -/
def specA : ServiceInstanceSpec :=
  { serviceClassName := "test-serviceclass"
    planName := "test-plan"
    parameters := none
    parametersFrom := []
    externalID := "test-external-id"
    userInfo := none }

/-- An instance whose generation (2) is ahead of its reconciled
generation (1): a pending change. -/
def instPending : ServiceInstance :=
  { meta := { name := "test-instance", namespc := "test-namespace", generation := 2,
              deletionTimestamp := none, finalizers := [] }
    spec := specA
    status := { zeroServiceInstanceStatus with reconciledGeneration := 1 } }

/-- A credential whose generation (2) is ahead of its reconciled
generation (1). -/
def credPending : ServiceInstanceCredential :=
  { meta := { name := "test-binding", namespc := "test-namespace", generation := 2,
              deletionTimestamp := none, finalizers := [] }
    spec := { serviceInstanceRefName := "test-instance", secretName := "test-secret",
              userInfo := none }
    status := { conditions := [], currentOperation := "", reconciledGeneration := 1,
                operationStartTime := none, inProgressProperties := none,
                externalProperties := none } }

/-- An update request on `instPending` (main resource, no subresource). -/
def attrInstPending : Attributes :=
  { obj := .inst instPending, resource := Resource "serviceinstances", subresource := "",
    operation := .update }

/-- An update request on `credPending`. -/
def attrCredPending : Attributes :=
  { obj := .cred credPending, resource := Resource "serviceinstancecredentials",
    subresource := "", operation := .update }

/-- A status-subresource update request carrying `instPending`. -/
def attrStatusUpdate : Attributes :=
  { obj := .inst instPending, resource := Resource "serviceinstances", subresource := "status",
    operation := .update }

/-- An old instance at generation 3 with `specA`. -/
def instOldGen3 : ServiceInstance :=
  { meta := { name := "test-instance", namespc := "test-namespace", generation := 3,
              deletionTimestamp := none, finalizers := [] }
    spec := specA
    status := zeroServiceInstanceStatus }

/-- A new instance at generation 5 with the same spec `specA`. -/
def instNewGen5 : ServiceInstance :=
  { meta := { name := "test-instance", namespc := "test-namespace", generation := 5,
              deletionTimestamp := none, finalizers := [] }
    spec := specA
    status := zeroServiceInstanceStatus }

/-- A structurally valid instance (under `extTriv`): generation 1,
reconciled generation 0, no operation. -/
def instValidBackward : ServiceInstance :=
  { meta := { name := "test-instance", namespc := "test-namespace", generation := 1,
              deletionTimestamp := none, finalizers := [] }
    spec := specA
    status := zeroServiceInstanceStatus }

/-- An old instance whose status has an async operation in progress. -/
def instOldAsync : ServiceInstance :=
  { meta := { name := "test-instance", namespc := "test-namespace", generation := 2,
              deletionTimestamp := none, finalizers := [] }
    spec := specA
    status := { zeroServiceInstanceStatus with asyncOpInProgress := true } }

/-- An old instance whose reconciled generation (5) is ahead of
`instValidBackward`'s (0). -/
def instOldRec5 : ServiceInstance :=
  { meta := { name := "test-instance", namespc := "test-namespace", generation := 1,
              deletionTimestamp := none, finalizers := [] }
    spec := specA
    status := { zeroServiceInstanceStatus with reconciledGeneration := 5 } }

/-- A snapshot with parameters present but an empty checksum. -/
def psPresentEmptyChecksum : PropertiesState :=
  { parameters := some { raw := [104, 105] }, parametersChecksum := "" }

/-- A snapshot with parameters present and a 64-hex-digit checksum. -/
def psGood : PropertiesState :=
  { parameters := some { raw := [104, 105] }
    parametersChecksum :=
      "aaaaaaaaaaaaaaaaaaaaaaaaaaaaaaaaaaaaaaaaaaaaaaaaaaaaaaaaaaaaaaaa" }

/-- A snapshot with no parameters but a non-empty checksum. -/
def psNoneBad : PropertiesState :=
  { parameters := none, parametersChecksum := "ff" }

/-- A status carrying an operation outside the legal set. -/
def statusBadOp : ServiceInstanceStatus :=
  { zeroServiceInstanceStatus with currentOperation := "bad-operation" }

/-! ## Theorems -/

/-- C1: for an admission request of operation Update on a ServiceInstance
with subresource different from "status", evaluated after the cache has
synced, `Admit` returns a Conflict exactly when the new object's
DeletionTimestamp is set or its `Status.ReconciledGeneration` differs from
its `Generation`; for a ServiceInstanceCredential under the same
conditions, exactly when `Status.ReconciledGeneration` differs from
`Generation` (no deletion check); in all other such cases the request is
allowed. -/
theorem admit_update_conflict_iff_pending :
    (∀ (a : Attributes) (i : ServiceInstance),
      a.operation = Operation.update →
      a.subresource ≠ "status" →
      a.resource = Resource "serviceinstances" →
      a.obj = AdmissionObject.inst i →
      Admit true a =
        (if i.meta.deletionTimestamp.isSome ∨ i.status.reconciledGeneration ≠ i.meta.generation
         then AdmitResult.conflict (Resource "serviceinstances")
           (i.meta.namespc ++ "/" ++ i.meta.name) "pending change"
         else AdmitResult.allowed)) ∧
    (∀ (a : Attributes) (c : ServiceInstanceCredential),
      a.operation = Operation.update →
      a.subresource ≠ "status" →
      a.resource = Resource "serviceinstancecredentials" →
      a.obj = AdmissionObject.cred c →
      Admit true a =
        (if c.status.reconciledGeneration ≠ c.meta.generation
         then AdmitResult.conflict (Resource "serviceinstancecredentials")
           (c.meta.namespc ++ "/" ++ c.meta.name) "pending change"
         else AdmitResult.allowed)) := by
  constructor
  · intro a i _ h2 h3 h4
    simp [Admit, h2, h3, h4, Resource, GroupName]
  · intro a c _ h2 h3 h4
    simp [Admit, h2, h3, h4, Resource, GroupName]

/-- Witness for C1: both pending objects draw concrete Conflict results. -/
theorem admit_update_conflict_iff_pending_witness :
    Admit true attrInstPending =
      AdmitResult.conflict (Resource "serviceinstances") "test-namespace/test-instance"
        "pending change" ∧
    Admit true attrCredPending =
      AdmitResult.conflict (Resource "serviceinstancecredentials") "test-namespace/test-binding"
        "pending change" := by
  constructor
  · rw [admit_update_conflict_iff_pending.1 attrInstPending instPending rfl (by decide) rfl rfl]
    decide
  · rw [admit_update_conflict_iff_pending.2 attrCredPending credPending rfl (by decide) rfl rfl]
    decide

/-- C2 counterexample: a request targeting the "status" subresource is
rejected (Forbidden), not allowed, while the cache has not synced; so the
status subresource is not skipped "regardless of any other state of the
gate". -/
theorem admit_status_subresource_counterexample :
    attrStatusUpdate.subresource = "status" ∧
    Admit false attrStatusUpdate = AdmitResult.forbidden notYetReadyMsg ∧
    Admit false attrStatusUpdate ≠ AdmitResult.allowed := by
  refine ⟨rfl, rfl, ?_⟩
  decide

/-- C2 (amended): after the cache has synced, every admission request
targeting the "status" subresource is allowed, regardless of any
generation mismatch or pending deletion on the object. -/
theorem admit_status_subresource_allowed_when_synced (a : Attributes)
    (h : a.subresource = "status") : Admit true a = AdmitResult.allowed := by
  rcases a with ⟨obj, res, sub, op⟩
  simp only at h
  subst h
  simp [Admit]

/-- Witness for C2: a status-subresource request on an object with a
generation mismatch is allowed once synced. -/
theorem admit_status_subresource_allowed_when_synced_witness :
    Admit true attrStatusUpdate = AdmitResult.allowed :=
  admit_status_subresource_allowed_when_synced attrStatusUpdate rfl

/-- C3: while the cache view has not synced, `Admit` rejects every request
with a Forbidden error whose message contains "not yet ready"; once
synced, no request is ever rejected with a Forbidden error again. -/
theorem admit_not_synced_forbidden (a : Attributes) (m : String) :
    Admit false a = AdmitResult.forbidden notYetReadyMsg ∧
    (∃ rest : String, notYetReadyMsg = "not yet ready" ++ rest) ∧
    Admit true a ≠ AdmitResult.forbidden m := by
  refine ⟨rfl, ⟨" to handle request", rfl⟩, ?_⟩
  intro h
  rcases a with ⟨obj, res, sub, op⟩
  cases obj <;> simp only [Admit] at h <;> split_ifs at h <;> simp_all

/-- C4: `PrepareForCreate` clears `Status` to its zero value with an empty
conditions list, sets `Generation = 1`, attaches the service-catalog
finalizer, and is idempotent on `Status` and `Generation`, for every input
object, context and feature-gate setting. -/
theorem prepareForCreate_normalizes (enabled : Bool) (ctx : Context) (obj : ServiceInstance) :
    (PrepareForCreate enabled ctx obj).status = zeroServiceInstanceStatus ∧
    (PrepareForCreate enabled ctx obj).status.conditions = [] ∧
    (PrepareForCreate enabled ctx obj).meta.generation = 1 ∧
    FinalizerServiceCatalog ∈ (PrepareForCreate enabled ctx obj).meta.finalizers ∧
    (PrepareForCreate enabled ctx (PrepareForCreate enabled ctx obj)).status =
      (PrepareForCreate enabled ctx obj).status ∧
    (PrepareForCreate enabled ctx (PrepareForCreate enabled ctx obj)).meta.generation =
      (PrepareForCreate enabled ctx obj).meta.generation := by
  rcases ctx with ⟨_ | u⟩ <;> cases enabled <;>
    simp [PrepareForCreate, setServiceInstanceUserInfo, zeroServiceInstanceStatus]

/-- The upserted conditions list always holds a `Ready` condition with
status `False`. -/
theorem upsertReadyFalse_mem (now : Nat) (l : List ServiceInstanceCondition) :
    ∃ c ∈ upsertReadyFalse now l,
      c.condType = ServiceInstanceConditionReady ∧ c.status = ConditionFalse := by
  induction l with
  | nil =>
    exact ⟨newReadyFalseCondition now, by simp [upsertReadyFalse, newReadyFalseCondition]⟩
  | cons c rest ih =>
    by_cases hc : c.condType = ServiceInstanceConditionReady
    · by_cases hs : c.status ≠ ConditionFalse
      · refine ⟨newReadyFalseCondition now, ?_, by simp [newReadyFalseCondition]⟩
        simp [upsertReadyFalse, hc, hs]
      · refine ⟨newReadyFalseCondition c.lastTransitionTime, ?_, by simp [newReadyFalseCondition]⟩
        simp [upsertReadyFalse, hc, hs]
    · obtain ⟨d, hd, hp⟩ := ih
      exact ⟨d, by simp [upsertReadyFalse, hc]; exact Or.inr hd, hp⟩

/-- C5 counterexample: with equal specs but different caller-supplied
generations, `PrepareForUpdate` leaves the new object's generation at its
incoming value (5), not at the old object's generation (3) — so "if
new.Spec deep-equals old.Spec then new.Generation equals old.Generation"
fails as stated. -/
theorem prepareForUpdate_counterexample :
    instNewGen5.spec = instOldGen3.spec ∧
    (PrepareForUpdate false { user := none } 0 instNewGen5 instOldGen3).meta.generation ≠
      instOldGen3.meta.generation := by
  constructor
  · rfl
  · decide

/-- C5 (amended): `PrepareForUpdate` forces the new object's status to the
old one's; when the specs are equal the result is exactly the new object
with the old status (generation left at the incoming new value, no
condition touched); when the specs differ, the generation becomes
`old.Generation + 1` and the status is the old status with a `Ready=False`
condition upserted into its conditions, so a `Ready` condition with status
`False` is present. -/
theorem prepareForUpdate_spec (enabled : Bool) (ctx : Context) (now : Nat)
    (newI oldI : ServiceInstance) :
    (newI.spec = oldI.spec →
      PrepareForUpdate enabled ctx now newI oldI = { newI with status := oldI.status }) ∧
    (newI.spec ≠ oldI.spec →
      (PrepareForUpdate enabled ctx now newI oldI).meta.generation =
        oldI.meta.generation + 1 ∧
      (PrepareForUpdate enabled ctx now newI oldI).status =
        { oldI.status with conditions := upsertReadyFalse now oldI.status.conditions } ∧
      ∃ c ∈ (PrepareForUpdate enabled ctx now newI oldI).status.conditions,
        c.condType = ServiceInstanceConditionReady ∧ c.status = ConditionFalse) := by
  constructor
  · intro h
    simp [PrepareForUpdate, h]
  · intro h
    have hne : ¬(oldI.spec = newI.spec) := fun hx => h hx.symm
    rcases ctx with ⟨_ | u⟩ <;> cases enabled <;>
      simp [PrepareForUpdate, setServiceInstanceUserInfo, setServiceInstanceReadyFalseCondition,
        hne, upsertReadyFalse_mem]

/-- Witness for C5: at a concrete spec-changing update the generation is
bumped from 3 to 4 and a `Ready=False` condition appears. -/
theorem prepareForUpdate_spec_witness :
    (PrepareForUpdate false { user := none } 7
        { instNewGen5 with spec := { specA with planName := "other-plan" } }
        instOldGen3).meta.generation = instOldGen3.meta.generation + 1 ∧
    ∃ c ∈ (PrepareForUpdate false { user := none } 7
        { instNewGen5 with spec := { specA with planName := "other-plan" } }
        instOldGen3).status.conditions,
      c.condType = ServiceInstanceConditionReady ∧ c.status = ConditionFalse := by
  have h := (prepareForUpdate_spec false { user := none } 7
    { instNewGen5 with spec := { specA with planName := "other-plan" } } instOldGen3).2
    (by decide)
  exact ⟨h.1, h.2.2⟩

/-- Every error of the `ParametersFrom` loop is a Required error. -/
theorem validateParametersFromSource_required (fldPath : String) (pf : ParametersFromSource)
    (e : FieldError) (he : e ∈ validateParametersFromSource fldPath pf) :
    e.errType = ErrorType.required := by
  rcases pf with ⟨_ | ref⟩ <;> simp only [validateParametersFromSource] at he
  · rw [List.mem_singleton] at he
    subst he
    rfl
  · split_ifs at he <;>
      simp only [List.mem_append, List.mem_singleton, List.not_mem_nil, or_false,
        false_or] at he <;>
      first
      | (rcases he with rfl | rfl <;> rfl)
      | (subst he; rfl)

/-- Every error of the spec validator is Required or Invalid (never
Forbidden), whatever the external name validators return. -/
theorem validateServiceInstanceSpec_errTypes (ext : Ext) (s : ServiceInstanceSpec)
    (p : String) (c : Bool) (e : FieldError) (he : e ∈ validateServiceInstanceSpec ext s p c) :
    e.errType = ErrorType.required ∨ e.errType = ErrorType.invalid := by
  unfold validateServiceInstanceSpec at he
  simp only [List.mem_append] at he
  rcases he with ((((he | he) | he) | he) | he) | he
  · split_ifs at he <;> simp at he <;> subst he <;> exact Or.inl rfl
  · obtain ⟨msg, _, rfl⟩ := List.mem_map.mp he
    exact Or.inr rfl
  · split_ifs at he <;> simp at he <;> subst he <;> exact Or.inl rfl
  · obtain ⟨msg, _, rfl⟩ := List.mem_map.mp he
    exact Or.inr rfl
  · obtain ⟨l, hl, hel⟩ := List.mem_flatten.mp he
    obtain ⟨pf, _, rfl⟩ := List.mem_map.mp hl
    exact Or.inl (validateParametersFromSource_required p pf e hel)
  · rcases hm : s.parameters with _ | pr <;> rw [hm] at he
    · simp at he
    · simp only [List.mem_append] at he
      rcases he with he | he <;> split_ifs at he <;> simp at he <;> subst he <;>
        exact Or.inl rfl

/-- No error of the snapshot validator carries the async-operation
message. -/
theorem validateServiceInstancePropertiesState_not_async (ext : Ext) (ps : PropertiesState)
    (p : String) (c : Bool) (e : FieldError)
    (he : e ∈ validateServiceInstancePropertiesState ext ps p c) :
    e.detail ≠ asyncOpMsg := by
  unfold validateServiceInstancePropertiesState at he
  simp only [List.mem_append] at he
  rcases he with he | he
  · rcases hm : ps.parameters with _ | pr <;> rw [hm] at he
    · split_ifs at he <;> simp at he <;> subst he <;> simp [requiredErr, invalidErr, forbiddenErr, notSupportedErr, asyncOpMsg]
    · simp only [List.mem_append] at he
      rcases he with he | he <;> split_ifs at he <;> simp at he <;> subst he <;> simp [requiredErr, invalidErr, forbiddenErr, notSupportedErr, asyncOpMsg]
  · by_cases hc : ps.parametersChecksum ≠ ""
    · rw [if_pos hc] at he
      simp only [List.mem_append] at he
      rcases he with he | he
      · by_cases h64 : ps.parametersChecksum.length ≠ 64
        · rw [if_pos h64] at he
          obtain rfl := List.mem_singleton.mp he
          simp [requiredErr, invalidErr, forbiddenErr, notSupportedErr, asyncOpMsg]
        · rw [if_neg h64] at he
          exact absurd he (List.not_mem_nil e)
      · by_cases hx : stringIsHexadecimal ps.parametersChecksum = true
        · rw [if_pos hx] at he
          exact absurd he (List.not_mem_nil e)
        · rw [if_neg hx] at he
          obtain rfl := List.mem_singleton.mp he
          simp [requiredErr, invalidErr, forbiddenErr, notSupportedErr, asyncOpMsg]
    · rw [if_neg hc] at he
      exact absurd he (List.not_mem_nil e)

/-- The detail every `Ready=True` loop error carries. -/
theorem readyTrueConditionErrors_detail (conds : List ServiceInstanceCondition) (p : String)
    (e : FieldError) (he : e ∈ readyTrueConditionErrors conds p) :
    e.detail =
      "Can not set ServiceInstanceConditionReady to true when there is an operation in progress" := by
  unfold readyTrueConditionErrors at he
  obtain ⟨a, _, hfa⟩ := List.mem_filterMap.mp he
  split_ifs at hfa
  injection hfa with h2
  subst h2
  rfl

/-- No error of the instance status validator carries the async-operation
message. -/
theorem validateServiceInstanceStatus_not_async (ext : Ext) (st : ServiceInstanceStatus)
    (p : String) (c : Bool) (e : FieldError)
    (he : e ∈ validateServiceInstanceStatus ext st p c) :
    e.detail ≠ asyncOpMsg := by
  unfold validateServiceInstanceStatus at he
  simp only [List.mem_append] at he
  rcases he with (((he | he) | he) | he) | he
  · split_ifs at he <;> simp at he <;> subst he <;> simp [requiredErr, invalidErr, forbiddenErr, notSupportedErr, asyncOpMsg]
  · by_cases hop : st.currentOperation = ""
    · rw [if_pos hop] at he
      simp only [List.mem_append] at he
      rcases he with (he | he) | he <;> split_ifs at he <;> simp at he <;> subst he <;> simp [requiredErr, invalidErr, forbiddenErr, notSupportedErr, asyncOpMsg]
    · rw [if_neg hop] at he
      simp only [List.mem_append] at he
      rcases he with he | he
      · split_ifs at he <;> simp at he <;> subst he <;> simp [requiredErr, invalidErr, forbiddenErr, notSupportedErr, asyncOpMsg]
      · have hd := readyTrueConditionErrors_detail st.conditions p e he
        rw [hd]
        simp [asyncOpMsg]
  · split_ifs at he <;> simp at he <;> subst he <;> simp [requiredErr, invalidErr, forbiddenErr, notSupportedErr, asyncOpMsg]
  · rcases hm : st.inProgressProperties with _ | ps2 <;> rw [hm] at he
    · simp at he
    · exact validateServiceInstancePropertiesState_not_async ext ps2 _ c e he
  · rcases hm : st.externalProperties with _ | ps2 <;> rw [hm] at he
    · simp at he
    · exact validateServiceInstancePropertiesState_not_async ext ps2 _ c e he

/-- C6: the update validator's error list contains the Forbidden error
"Another operation for this service instance is in progress" (at path
`Spec`) exactly when the old object has `AsyncOpInProgress`, independent
of the new object's contents (provided the external object-meta validator
does not itself produce that exact error), and the structural errors for
the new object are accumulated alongside it rather than
short-circuited. -/
theorem validateServiceInstanceUpdate_async_iff (ext : Ext) (newI oldI : ServiceInstance)
    (hMeta : forbiddenErr "Spec" asyncOpMsg ∉ ext.validateObjectMeta newI.meta) :
    (forbiddenErr "Spec" asyncOpMsg ∈ ValidateServiceInstanceUpdate ext newI oldI ↔
      oldI.status.asyncOpInProgress = true) ∧
    ValidateServiceInstanceUpdate ext newI oldI =
      internalValidateServiceInstanceUpdateAllowed newI oldI ++
        internalValidateServiceInstance ext newI false := by
  refine ⟨⟨?_, ?_⟩, rfl⟩
  · intro hmem
    unfold ValidateServiceInstanceUpdate at hmem
    rcases List.mem_append.mp hmem with h | h
    · unfold internalValidateServiceInstanceUpdateAllowed at h
      split_ifs at h with ha
      · exact ha
      · simp at h
    · exfalso
      unfold internalValidateServiceInstance at h
      simp only [List.mem_append] at h
      rcases h with ((h | h) | h) | h
      · exact hMeta h
      · rcases validateServiceInstanceSpec_errTypes ext newI.spec "Spec" false _ h with h1 | h1 <;>
          simp [forbiddenErr] at h1
      · exact validateServiceInstanceStatus_not_async ext newI.status "Status" false _ h rfl
      · split_ifs at h <;>
          first
          | exact absurd (congrArg FieldError.detail (List.mem_singleton.mp h)) (by decide)
          | exact absurd h (List.not_mem_nil _)
  · intro ha
    unfold ValidateServiceInstanceUpdate internalValidateServiceInstanceUpdateAllowed
    refine List.mem_append.mpr (Or.inl ?_)
    rw [if_pos ha]
    simp

/-- Witness for C6: against an old object with an async operation in
progress, the update validator's list contains the Forbidden error. -/
theorem validateServiceInstanceUpdate_async_iff_witness :
    forbiddenErr "Spec" asyncOpMsg ∈
      ValidateServiceInstanceUpdate extTriv instValidBackward instOldAsync :=
  (validateServiceInstanceUpdate_async_iff extTriv instValidBackward instOldAsync
    (by simp [extTriv])).1.mpr (by decide)

/-- C7 counterexample: a snapshot with parameters present and an empty
checksum (whose length, 0, differs from 64) draws no Invalid-class error
at all — only the Forbidden "parametersChecksum must not be empty" error —
contradicting the claim that a present-parameters snapshot with checksum
length ≠ 64 yields Invalid-class errors. -/
theorem validatePropertiesState_counterexample :
    psPresentEmptyChecksum.parameters.isSome = true ∧
    psPresentEmptyChecksum.parametersChecksum.length ≠ 64 ∧
    (∀ e ∈ validateServiceInstancePropertiesState extTriv psPresentEmptyChecksum
        "Status.inProgressProperties" false,
      e.errType ≠ ErrorType.invalid) ∧
    validateServiceInstancePropertiesState extTriv psPresentEmptyChecksum
        "Status.inProgressProperties" false =
      [forbiddenErr "Status.inProgressProperties.parametersChecksum"
        "parametersChecksum must not be empty when there are parameters"] := by
  refine ⟨rfl, by decide, by decide, by decide⟩

/-- C7 (amended): the snapshot validator returns an empty list iff
parameters and checksum are consistent (absent/empty, or present with
non-empty raw bytes that unmarshal and a 64-hex-digit checksum); absent
parameters with a non-empty checksum draw a Forbidden-class error; present
parameters with a NON-EMPTY checksum of length ≠ 64 or with a non-hex
character draw an Invalid-class error (an empty checksum draws the
Forbidden error instead); and the credential snapshot validator behaves
identically. -/
theorem validatePropertiesState_checksum_spec (ext : Ext) (ps : PropertiesState)
    (fldPath : String) (create : Bool) :
    (validateServiceInstancePropertiesState ext ps fldPath create = [] ↔
      (match ps.parameters with
       | none => ps.parametersChecksum = ""
       | some p => p.raw.length ≠ 0 ∧ ext.yamlIsStructured p.raw = true ∧
           ps.parametersChecksum.length = 64 ∧ stringIsHexadecimal ps.parametersChecksum = true)) ∧
    (ps.parameters = none → ps.parametersChecksum ≠ "" →
      ∃ e ∈ validateServiceInstancePropertiesState ext ps fldPath create,
        e.errType = ErrorType.forbidden) ∧
    (ps.parameters.isSome = true → ps.parametersChecksum ≠ "" →
      (ps.parametersChecksum.length ≠ 64 ∨ ¬ stringIsHexadecimal ps.parametersChecksum = true) →
      ∃ e ∈ validateServiceInstancePropertiesState ext ps fldPath create,
        e.errType = ErrorType.invalid) ∧
    validateServiceInstanceCredentialPropertiesState ext ps fldPath create =
      validateServiceInstancePropertiesState ext ps fldPath create := by
  refine ⟨?_, ?_, ?_, rfl⟩
  · rcases hp : ps.parameters with _ | p
    · unfold validateServiceInstancePropertiesState
      rw [hp]
      by_cases hc : ps.parametersChecksum = "" <;> simp_all
    · unfold validateServiceInstancePropertiesState
      rw [hp]
      by_cases h0 : p.raw.length = 0 <;> by_cases hy : ext.yamlIsStructured p.raw = true <;>
        by_cases hc : ps.parametersChecksum = "" <;>
        by_cases h64 : ps.parametersChecksum.length = 64 <;>
        by_cases hx : stringIsHexadecimal ps.parametersChecksum = true <;>
        simp_all
  · intro hp hc
    refine ⟨forbiddenErr (childPath fldPath "parametersChecksum")
      "parametersChecksum must be empty when there are no parameters", ?_, rfl⟩
    unfold validateServiceInstancePropertiesState
    rw [hp]
    exact List.mem_append.mpr (Or.inl (by rw [if_pos hc]; simp))
  · intro hp hc hbad
    unfold validateServiceInstancePropertiesState
    rcases hbad with h64 | hx
    · refine ⟨invalidErr (childPath fldPath "parametersChecksum") ps.parametersChecksum
        "parametersChecksum must be exactly 64 digits",
        List.mem_append.mpr (Or.inr ?_), rfl⟩
      rw [if_pos hc, if_pos h64]
      simp
    · refine ⟨invalidErr (childPath fldPath "parametersChecksum") ps.parametersChecksum
        "parametersChecksum must be a hexadecimal number",
        List.mem_append.mpr (Or.inr ?_), rfl⟩
      rw [if_pos hc, if_neg hx]
      simp

/-- Witness for C7: the well-formed snapshot `psGood` validates cleanly,
and `psNoneBad` (no parameters, checksum "ff") draws a Forbidden-class
error. -/
theorem validatePropertiesState_checksum_spec_witness :
    validateServiceInstancePropertiesState extTriv psGood "p" false = [] ∧
    (∃ e ∈ validateServiceInstancePropertiesState extTriv psNoneBad "p" false,
      e.errType = ErrorType.forbidden) := by
  refine ⟨by decide, ?_⟩
  exact (validatePropertiesState_checksum_spec extTriv psNoneBad "p" false).2.1 rfl (by decide)

/-- Membership in the `Ready=True` loop errors, given a `Ready=True`
condition at index `iv.1`. -/
theorem readyTrueConditionErrors_mem (conds : List ServiceInstanceCondition) (p : String)
    (iv : Nat × ServiceInstanceCondition) (h1 : iv ∈ conds.enum)
    (h2 : iv.2.condType = ServiceInstanceConditionReady) (h3 : iv.2.status = ConditionTrue) :
    forbiddenErr (indexPath (childPath p "Conditions") iv.1)
        "Can not set ServiceInstanceConditionReady to true when there is an operation in progress"
      ∈ readyTrueConditionErrors conds p := by
  unfold readyTrueConditionErrors
  exact List.mem_filterMap.mpr ⟨iv, h1, by rw [if_pos ⟨h2, h3⟩]⟩

/-- C8: the instance status validator emits a NotSupported error listing
the kind's legal operation set whenever `CurrentOperation` is outside it,
and enforces the invariants: generation equal to reconciled generation
forbids a current operation (on the full object validator); a non-empty
operation requires `OperationStartTime` and forbids a `Ready=True`
condition; an empty operation forbids `AsyncOpInProgress` and
`LastOperation`; and `InProgressProperties` is required exactly when the
operation is Provision or Update and forbidden otherwise. -/
theorem validateServiceInstanceStatus_invariants (ext : Ext) (inst : ServiceInstance)
    (st : ServiceInstanceStatus) (fldPath : String) (create : Bool) :
    (st.currentOperation ∉ validServiceInstanceOperations →
      notSupportedErr (childPath fldPath "currentOperation") st.currentOperation
          validServiceInstanceOperations
        ∈ validateServiceInstanceStatus ext st fldPath create) ∧
    (inst.status.reconciledGeneration = inst.meta.generation →
      inst.status.currentOperation ≠ "" →
      forbiddenErr (childPath "Status" "currentOperation")
          "currentOperation must not be present when reconciledGeneration and generation are the same"
        ∈ internalValidateServiceInstance ext inst create) ∧
    (st.currentOperation ≠ "" → st.operationStartTime = none →
      requiredErr (childPath fldPath "operationStartTime")
          "operationStartTime is required when currentOperation is present"
        ∈ validateServiceInstanceStatus ext st fldPath create) ∧
    (st.currentOperation ≠ "" →
      ∀ iv ∈ st.conditions.enum, iv.2.condType = ServiceInstanceConditionReady →
        iv.2.status = ConditionTrue →
        forbiddenErr (indexPath (childPath fldPath "Conditions") iv.1)
            "Can not set ServiceInstanceConditionReady to true when there is an operation in progress"
          ∈ validateServiceInstanceStatus ext st fldPath create) ∧
    (st.currentOperation = "" → st.asyncOpInProgress = true →
      forbiddenErr (childPath fldPath "asyncOpInProgress")
          "asyncOpInProgress cannot be true when there is no currentOperation"
        ∈ validateServiceInstanceStatus ext st fldPath create) ∧
    (st.currentOperation = "" → st.lastOperation.isSome = true →
      forbiddenErr (childPath fldPath "lastOperation")
          "lastOperation cannot be true when currentOperation is not present"
        ∈ validateServiceInstanceStatus ext st fldPath create) ∧
    ((st.currentOperation = ServiceInstanceOperationProvision ∨
        st.currentOperation = ServiceInstanceOperationUpdate) →
      st.inProgressProperties = none →
      requiredErr (childPath fldPath "inProgressProperties")
          "inProgressProperties is required when currentOperation is \"Provision\" or \"Update\""
        ∈ validateServiceInstanceStatus ext st fldPath create) ∧
    (¬(st.currentOperation = ServiceInstanceOperationProvision ∨
        st.currentOperation = ServiceInstanceOperationUpdate) →
      st.inProgressProperties ≠ none →
      forbiddenErr (childPath fldPath "inProgressProperties")
          "inProgressProperties must not be present when currentOperation is neither \"Provision\" nor \"Update\""
        ∈ validateServiceInstanceStatus ext st fldPath create) := by
  refine ⟨?_, ?_, ?_, ?_, ?_, ?_, ?_, ?_⟩
  · intro h
    unfold validateServiceInstanceStatus
    rw [if_neg h]
    simp
  · intro h1 h2
    unfold internalValidateServiceInstance
    rw [if_pos h1, if_pos h2]
    simp
  · intro h1 h2
    unfold validateServiceInstanceStatus
    rw [if_neg h1, if_pos h2]
    simp
  · intro h1 iv hmem h2 h3
    have hm := readyTrueConditionErrors_mem st.conditions fldPath iv hmem h2 h3
    unfold validateServiceInstanceStatus
    rw [if_neg h1]
    simp only [List.mem_append]
    tauto
  · intro h1 h2
    unfold validateServiceInstanceStatus
    rw [if_pos h1, if_pos h2]
    simp
  · intro h1 h2
    unfold validateServiceInstanceStatus
    rw [if_pos h1, if_pos h2]
    simp
  · intro h1 h2
    unfold validateServiceInstanceStatus
    rw [if_pos h1, if_pos h2]
    simp
  · intro h1 h2
    unfold validateServiceInstanceStatus
    rw [if_neg h1, if_pos h2]
    simp

/-- Witness for C8: "bad-operation" draws the NotSupported error listing
the legal set. -/
theorem validateServiceInstanceStatus_invariants_witness :
    notSupportedErr "Status.currentOperation" "bad-operation" validServiceInstanceOperations
      ∈ validateServiceInstanceStatus extTriv statusBadOp "Status" false :=
  (validateServiceInstanceStatus_invariants extTriv instValidBackward statusBadOp
    "Status" false).1 (by decide)

/-- C9: the status-update validator performs exactly the structural
validation of the full object validator on the new object, is independent
of the old object, and in particular accepts any structurally valid new
object whatever the old one's reconciled generation was. -/
theorem validateServiceInstanceStatusUpdate_structural (ext : Ext)
    (newI oldI oldI2 : ServiceInstance) :
    ValidateServiceInstanceStatusUpdate ext newI oldI = ValidateServiceInstance ext newI ∧
    ValidateServiceInstanceStatusUpdate ext newI oldI =
      ValidateServiceInstanceStatusUpdate ext newI oldI2 ∧
    (ValidateServiceInstance ext newI = [] →
      ValidateServiceInstanceStatusUpdate ext newI oldI = []) :=
  ⟨rfl, rfl, fun h => h⟩

/-- Witness for C9: a valid new object whose reconciled generation (0)
moved backward from the old object's (5) is still accepted on the status
path. -/
theorem validateServiceInstanceStatusUpdate_structural_witness :
    ValidateServiceInstance extTriv instValidBackward = [] ∧
    instValidBackward.status.reconciledGeneration < instOldRec5.status.reconciledGeneration ∧
    ValidateServiceInstanceStatusUpdate extTriv instValidBackward instOldRec5 = [] := by
  have h : ValidateServiceInstance extTriv instValidBackward = [] := by decide
  exact ⟨h, by decide,
    (validateServiceInstanceStatusUpdate_structural extTriv instValidBackward instOldRec5
      instOldRec5).2.2 h⟩

/-- C10: the credential status-update validator returns exactly the
credential update validator's error list, and neither depends on the old
object. -/
theorem validateServiceInstanceCredentialStatusUpdate_eq (ext : Ext)
    (newB oldB oldB2 : ServiceInstanceCredential) :
    ValidateServiceInstanceCredentialStatusUpdate ext newB oldB =
      ValidateServiceInstanceCredentialUpdate ext newB oldB ∧
    ValidateServiceInstanceCredentialUpdate ext newB oldB =
      ValidateServiceInstanceCredentialUpdate ext newB oldB2 ∧
    ValidateServiceInstanceCredentialStatusUpdate ext newB oldB =
      ValidateServiceInstanceCredentialStatusUpdate ext newB oldB2 :=
  ⟨rfl, rfl, rfl⟩

end SvcCat
